import Mathlib

/-!
Shallow embedding of the quiz-validator validation and scoring engine
(`validateField`, `validateQuizQuestion`, `validateQuizSet` from the
library's `index.ts`), together with theorems checking the specification's
claims about it.

Modelling conventions:
* JavaScript runtime values reaching the validator are modelled by the
  inductive type `Value` (undefined, null, booleans, numbers, strings,
  string arrays); numbers are modelled as integers (every number the
  engine manipulates is an integer, and no arithmetic is performed on
  question field values).
* JavaScript truthiness and the `value === undefined || value === null ||
  value === ''` absence test are modelled by `Value.truthy` / `Value.isAbsent`.
* `Math.round(x)` rounds half toward positive infinity, i.e. `⌊x + 1/2⌋`;
  this is `mathRound` on ℚ.  The engine only ever rounds quotients of
  integers with positive denominator, which is computed exactly over ℤ by
  `roundDiv` (with `roundDiv_eq_mathRound` proving the two agree), keeping
  every definition kernel-evaluable.
* Regular expressions and custom validators are modelled as opaque boolean
  predicates (`String → Bool`, `Value → Bool`): the engine only calls
  `.test` / the validator and branches on the boolean result.
* String lengths use Lean's character count; the source uses JavaScript's
  UTF-16 length.  The two agree on all concrete inputs appearing below.
-/

/-- A JavaScript value as handled by the validator. -/
inductive Value where
  | undef : Value
  | null : Value
  | bool (b : Bool) : Value
  | num (n : Int) : Value
  | str (s : String) : Value
  | strs (l : List String) : Value
deriving DecidableEq, Repr

/-- The absence test used by `validateField`:
`value === undefined || value === null || value === ''`. -/
def Value.isAbsent : Value → Bool
  | .undef => true
  | .null => true
  | .str s => s = ""
  | _ => false

/-- `typeof value === 'string'`. -/
def Value.isString : Value → Bool
  | .str _ => true
  | _ => false

/-- JavaScript truthiness of a `Value` (arrays are always truthy). -/
def Value.truthy : Value → Bool
  | .undef => false
  | .null => false
  | .bool b => b
  | .num n => n ≠ 0
  | .str s => s ≠ ""
  | .strs _ => true

/-- JavaScript `a || b` for an optional string `a`: the empty string is
falsy, so it also falls through to the default. -/
def jsStringOr (a : Option String) (b : String) : String :=
  match a with
  | some s => if s = "" then b else s
  | none => b

/-- The `ValidationRule` interface.  `pattern` is the boolean test of the
regular expression; `customValidator` the user-supplied predicate. -/
structure ValidationRule where
  field : String
  minLength : Option Nat := none
  maxLength : Option Nat := none
  required : Option Bool := none
  pattern : Option (String → Bool) := none
  customValidator : Option (Value → Bool) := none
  errorMessage : Option String := none

/-- The `ValidationError` interface (also used for warnings). -/
structure ValidationError where
  field : String
  message : String
  value : Option Value := none
  rule : Option String := none
deriving DecidableEq, Repr

/-- The `ValidationResult` interface.  `score` is an integer (the source
stores a JavaScript number that is always integral). -/
structure ValidationResult where
  valid : Bool
  errors : List ValidationError
  warnings : List ValidationError
  score : Int
deriving DecidableEq, Repr

/-- The `QuizQuestion` interface: `question` is a required string, the
other declared fields are optional (absent = `undefined`); `extra` is the
open extension bag `[key: string]: any`. -/
structure QuizQuestion where
  id : Value := .undef
  question : String
  options : Option (List String) := none
  correctAnswer : Value := .undef
  explanation : Value := .undef
  category : Value := .undef
  difficulty : Value := .undef
  extra : List (String × Value) := []
deriving DecidableEq, Repr

/-- Dynamic property access `question[field]` on a `QuizQuestion`:
declared fields first, then the extension bag, `undefined` otherwise. -/
def QuizQuestion.getField (q : QuizQuestion) (f : String) : Value :=
  if f = "id" then q.id
  else if f = "question" then .str q.question
  else if f = "options" then (match q.options with
    | some l => .strs l
    | none => .undef)
  else if f = "correctAnswer" then q.correctAnswer
  else if f = "explanation" then q.explanation
  else if f = "category" then q.category
  else if f = "difficulty" then q.difficulty
  else (((q.extra.find? (fun p => p.1 = f)).map (fun p => p.2)).getD .undef)

/-- The `QuizValidationOptions` interface; `none` means the caller omitted
the option, and the defaults of `DEFAULT_OPTIONS` are merged in by
`validateQuizQuestion` (`questionMinLength` 5, `questionMaxLength` 500,
`optionMinLength` 1, `optionMaxLength` 200, `explanationMinLength` 10,
`explanationMaxLength` 1000, `minOptions` 2, `maxOptions` 10, the three
`require*` flags false, `customRules` empty). -/
structure QuizValidationOptions where
  questionMinLength : Option Nat := none
  questionMaxLength : Option Nat := none
  optionMinLength : Option Nat := none
  optionMaxLength : Option Nat := none
  explanationMinLength : Option Nat := none
  explanationMaxLength : Option Nat := none
  minOptions : Option Nat := none
  maxOptions : Option Nat := none
  requireExplanation : Option Bool := none
  requireCategory : Option Bool := none
  requireDifficulty : Option Bool := none
  customRules : Option (List ValidationRule) := none

/-- JavaScript `Math.round`: round half toward positive infinity. -/
def mathRound (x : ℚ) : ℤ := ⌊x + 1/2⌋

/-- `Math.round(num / den)` for an integer numerator and positive natural
denominator, computed exactly over ℤ:
`⌊num/den + 1/2⌋ = (2*num + den) / (2*den)` (Euclidean division).
`roundDiv_eq_mathRound` below proves the agreement. -/
def roundDiv (num : ℤ) (den : Nat) : ℤ := (2 * num + den) / (2 * (den : ℤ))

/-- The string length checks of `validateField` (strings only; `minLength`
before `maxLength`, first violation wins). -/
def lengthChecks (value : Value) (rule : ValidationRule) : Option ValidationError :=
  match value with
  | .str s =>
    let minError : Option ValidationError :=
      match rule.minLength with
      | some m =>
        if s.length < m then
          some { field := rule.field
                 message := jsStringOr rule.errorMessage
                   (rule.field ++ " must be at least " ++ toString m ++
                    " characters (got " ++ toString s.length ++ ")")
                 value := some value
                 rule := some "minLength" }
        else none
      | none => none
    let maxError : Option ValidationError :=
      match rule.maxLength with
      | some m =>
        if s.length > m then
          some { field := rule.field
                 message := jsStringOr rule.errorMessage
                   (rule.field ++ " must be at most " ++ toString m ++
                    " characters (got " ++ toString s.length ++ ")")
                 value := some value
                 rule := some "maxLength" }
        else none
      | none => none
    minError.orElse fun _ => maxError
  | _ => none

/-- The pattern check of `validateField` (strings only). -/
def patternCheck (value : Value) (rule : ValidationRule) : Option ValidationError :=
  match value, rule.pattern with
  | .str s, some p =>
    if !(p s) then
      some { field := rule.field
             message := jsStringOr rule.errorMessage
               (rule.field ++ " does not match required pattern")
             value := some value
             rule := some "pattern" }
    else none
  | _, _ => none

/-- The custom-validator check of `validateField`. -/
def customCheck (value : Value) (rule : ValidationRule) : Option ValidationError :=
  match rule.customValidator with
  | some cv =>
    if !(cv value) then
      some { field := rule.field
             message := jsStringOr rule.errorMessage
               (rule.field ++ " failed custom validation")
             value := some value
             rule := some "custom" }
    else none
  | none => none

/-- `validateField(value, rule)`: evaluate one rule against one value,
returning the first failing check\'s error (required, then for strings
minLength / maxLength, then pattern, then customValidator), or `none`. -/
def validateField (value : Value) (rule : ValidationRule) : Option ValidationError :=
  -- Required check
  if rule.required.getD false && value.isAbsent then
    some { field := rule.field
           message := jsStringOr rule.errorMessage (rule.field ++ " is required")
           value := some value
           rule := some "required" }
  -- Skip other checks if value is empty and not required
  else if !(rule.required.getD false) && value.isAbsent then
    none
  else
    ((lengthChecks value rule).orElse fun _ => patternCheck value rule).orElse fun _ =>
      customCheck value rule

/-- `question.options?.length || 0`: the number of options present. -/
def optionCount (q : QuizQuestion) : Nat := (q.options.map List.length).getD 0

/-- The `totalChecks` quantity of the scoring formula in
`validateQuizQuestion`. -/
def totalChecks (q : QuizQuestion) (options : QuizValidationOptions) : Nat :=
  4 + optionCount q +
  (if options.requireExplanation.getD false then 1 else 0) +
  (if options.requireCategory.getD false then 1 else 0) +
  (if options.requireDifficulty.getD false then 1 else 0) +
  (options.customRules.getD []).length

/-- The custom-rules loop of `validateQuizQuestion`: each rule is evaluated
against `question[rule.field]` and the resulting errors are collected in
order. -/
def customRuleErrors (q : QuizQuestion) (rules : List ValidationRule) : List ValidationError :=
  rules.filterMap fun rule => validateField (q.getField rule.field) rule

/-- `validateQuizQuestion(question, options)`. -/
def validateQuizQuestion (q : QuizQuestion) (options : QuizValidationOptions := {}) :
    ValidationResult :=
  let questionMinLength := options.questionMinLength.getD 5
  let questionMaxLength := options.questionMaxLength.getD 500
  let optionMinLength := options.optionMinLength.getD 1
  let optionMaxLength := options.optionMaxLength.getD 200
  let explanationMinLength := options.explanationMinLength.getD 10
  let explanationMaxLength := options.explanationMaxLength.getD 1000
  let minOptions := options.minOptions.getD 2
  let maxOptions := options.maxOptions.getD 10
  let requireExplanation := options.requireExplanation.getD false
  let requireCategory := options.requireCategory.getD false
  let requireDifficulty := options.requireDifficulty.getD false
  -- Validate question text
  let questionError := validateField (.str q.question)
    { field := "question", required := some true,
      minLength := some questionMinLength, maxLength := some questionMaxLength }
  -- Validate options (count bounds, each option, duplicates)
  let optionErrors : List ValidationError :=
    match q.options with
    | none => []
    | some opts =>
      (if opts.length < minOptions then
        [{ field := "options"
           message := "At least " ++ toString minOptions ++ " options required (got " ++
             toString opts.length ++ ")"
           value := some (.num opts.length)
           rule := some "minOptions" }]
       else []) ++
      (if opts.length > maxOptions then
        [{ field := "options"
           message := "At most " ++ toString maxOptions ++ " options allowed (got " ++
             toString opts.length ++ ")"
           value := some (.num opts.length)
           rule := some "maxOptions" }]
       else []) ++
      (opts.enum.filterMap fun p =>
        validateField (.str p.2)
          { field := "options[" ++ toString p.1 ++ "]", required := some true,
            minLength := some optionMinLength, maxLength := some optionMaxLength })
  let dupWarnings : List ValidationError :=
    match q.options with
    | none => []
    | some opts =>
      if opts.dedup.length ≠ opts.length then
        [{ field := "options", message := "Duplicate options detected",
           rule := some "duplicates" }]
      else []
  -- Validate explanation
  let explanationError : Option ValidationError :=
    if requireExplanation || q.explanation.truthy then
      validateField q.explanation
        { field := "explanation", required := some requireExplanation,
          minLength := some explanationMinLength, maxLength := some explanationMaxLength }
    else none
  -- Validate category
  let categoryError : Option ValidationError :=
    if requireCategory then
      validateField q.category { field := "category", required := some true }
    else none
  -- Validate difficulty
  let difficultyError : Option ValidationError :=
    if requireDifficulty then
      validateField q.difficulty { field := "difficulty", required := some true }
    else none
  -- Apply custom rules
  let customErrors := customRuleErrors q (options.customRules.getD [])
  let errors := questionError.toList ++ optionErrors ++ explanationError.toList ++
    categoryError.toList ++ difficultyError.toList ++ customErrors
  let warnings := dupWarnings
  -- Calculate score (0-100)
  let failedChecks := errors.length
  let score := max 0 (roundDiv (((totalChecks q options : ℤ) - failedChecks) * 100)
    (totalChecks q options))
  { valid := errors.isEmpty, errors := errors, warnings := warnings, score := score }

/-- The summary record of `validateQuizSet`. -/
structure QuizSetSummary where
  total : Nat
  passed : Nat
  failed : Nat
  averageScore : Int
deriving DecidableEq, Repr

/-- The return shape of `validateQuizSet`. -/
structure QuizSetResult where
  valid : Bool
  results : List ValidationResult
  summary : QuizSetSummary
deriving DecidableEq, Repr

/-- `validateQuizSet(questions, options)`. -/
def validateQuizSet (questions : List QuizQuestion)
    (options : QuizValidationOptions := {}) : QuizSetResult :=
  let results := questions.map fun q => validateQuizQuestion q options
  let passed := (results.filter fun r => r.valid).length
  let failed := (results.filter fun r => !r.valid).length
  let averageScore := roundDiv ((results.map fun r => r.score).sum) (max 1 results.length)
  { valid := failed == 0
    results := results
    summary := { total := questions.length, passed := passed, failed := failed,
                 averageScore := averageScore } }

-- Sanity examples from the specification's §8 (default options).
example :
    validateQuizQuestion { question := "What is 2+2?", options := some ["3", "4", "5", "6"] } {}
      = { valid := true, errors := [], warnings := [], score := 100 } := by decide

example :
    (validateQuizQuestion { question := "Hi?", options := some ["A", "B"] } {}).errors
      = [{ field := "question",
           message := "question must be at least 5 characters (got 3)",
           value := some (.str "Hi?"), rule := some "minLength" }] := by decide

example :
    (validateQuizQuestion { question := "Test question?", options := some ["A"] } {}).errors
      = [{ field := "options", message := "At least 2 options required (got 1)",
           value := some (.num 1), rule := some "minOptions" }] := by decide

/-! ## Helper lemmas -/

/-- `roundDiv` computes JavaScript `Math.round` of the exact quotient. -/
theorem roundDiv_eq_mathRound (num : ℤ) (den : Nat) (h : 0 < den) :
    roundDiv num den = mathRound ((num : ℚ) / (den : ℚ)) := by
  unfold roundDiv mathRound
  have key : ((num : ℚ) / (den : ℚ) + 1/2) = ((2 * num + den : ℤ) : ℚ) / ((2 * den : ℕ) : ℚ) := by
    have hd : ((den : ℚ)) ≠ 0 := by positivity
    push_cast
    field_simp
    ring
  rw [key, Rat.floor_intCast_div_natCast]
  push_cast
  ring_nf

theorem totalChecks_pos (q : QuizQuestion) (o : QuizValidationOptions) :
    0 < totalChecks q o := by
  unfold totalChecks
  omega

/-- The score of a question is the clamped rounded ratio of its `totalChecks`
and its own error count (definitional unfolding of `validateQuizQuestion`). -/
theorem validateQuizQuestion_score_def (q : QuizQuestion) (o : QuizValidationOptions) :
    (validateQuizQuestion q o).score =
      max 0 (roundDiv (((totalChecks q o : ℤ) -
        ((validateQuizQuestion q o).errors.length : ℤ)) * 100) (totalChecks q o)) := rfl

/-- `valid` is computed from the question's own error list (definitional). -/
theorem validateQuizQuestion_valid_def (q : QuizQuestion) (o : QuizValidationOptions) :
    (validateQuizQuestion q o).valid = (validateQuizQuestion q o).errors.isEmpty := rfl

/-! ## Claim theorems -/

/-- C1: for every question record and every options configuration,
`validateQuizQuestion` computes the score exactly by the formula
`score = max(0, round(((totalChecks - failedChecks) / totalChecks) * 100))`
with `failedChecks = errors.length` and
`totalChecks = 4 + optionCount + (requireExplanation?1:0) + (requireCategory?1:0)
+ (requireDifficulty?1:0) + customRuleCount`. -/
theorem validateQuizQuestion_score_formula (q : QuizQuestion) (o : QuizValidationOptions) :
    (validateQuizQuestion q o).score =
      max 0 (mathRound (((totalChecks q o : ℚ) -
        ((validateQuizQuestion q o).errors.length : ℚ)) / (totalChecks q o : ℚ) * 100)) ∧
    totalChecks q o =
      4 + optionCount q +
      (if o.requireExplanation.getD false then 1 else 0) +
      (if o.requireCategory.getD false then 1 else 0) +
      (if o.requireDifficulty.getD false then 1 else 0) +
      (o.customRules.getD []).length := by
  refine ⟨?_, rfl⟩
  rw [validateQuizQuestion_score_def q o, roundDiv_eq_mathRound _ _ (totalChecks_pos q o)]
  congr 1
  push_cast
  ring

/-- A question whose options repeat `"Same"`, for the duplicate-warning check. -/
def duplicateOptionsQuestion : QuizQuestion :=
  { question := "A valid question", options := some ["Same", "Different", "Same"] }

/-- The same question without the duplicated option. -/
def distinctOptionsQuestion : QuizQuestion :=
  { question := "A valid question", options := some ["Same", "Different"] }

/-- C3: `valid` is true iff the errors list is empty (warnings never affect
it), and a question with options `["Same","Different","Same"]` gets a
`duplicates`-kind entry in `warnings`, none in `errors`, and stays valid —
its validity equals that of the same question without the duplicate. -/
theorem valid_iff_errors_empty_and_duplicates_warn_only :
    (∀ (q : QuizQuestion) (o : QuizValidationOptions),
      (validateQuizQuestion q o).valid = true ↔ (validateQuizQuestion q o).errors = []) ∧
    ((validateQuizQuestion duplicateOptionsQuestion {}).warnings =
      [{ field := "options", message := "Duplicate options detected",
         rule := some "duplicates" }] ∧
     (validateQuizQuestion duplicateOptionsQuestion {}).errors = [] ∧
     (validateQuizQuestion duplicateOptionsQuestion {}).valid = true ∧
     (validateQuizQuestion duplicateOptionsQuestion {}).valid =
       (validateQuizQuestion distinctOptionsQuestion {}).valid) := by
  constructor
  · intro q o
    rw [validateQuizQuestion_valid_def]
    exact List.isEmpty_iff
  · decide

/-- C7: `validateQuizSet` returns one result per question, in input order,
and its summary satisfies `total = N`, `passed + failed = total`, and the
set-level `valid` is true iff `failed = 0`. -/
theorem validateQuizSet_aggregation (qs : List QuizQuestion) (o : QuizValidationOptions) :
    (validateQuizSet qs o).results = qs.map (fun q => validateQuizQuestion q o) ∧
    (validateQuizSet qs o).summary.total = qs.length ∧
    (validateQuizSet qs o).summary.passed + (validateQuizSet qs o).summary.failed =
      (validateQuizSet qs o).summary.total ∧
    ((validateQuizSet qs o).valid = true ↔ (validateQuizSet qs o).summary.failed = 0) := by
  refine ⟨rfl, rfl, ?_, ?_⟩
  · have h := (List.length_eq_length_filter_add
      (l := qs.map fun q => validateQuizQuestion q o) (fun r => r.valid)).symm
    simpa [List.length_map] using h
  · exact beq_iff_eq

/-- C8: `averageScore = round(sum of scores / max(1, N))`, and on the empty
sequence `validateQuizSet` returns exactly
`{valid: true, results: [], summary: {total: 0, passed: 0, failed: 0, averageScore: 0}}`. -/
theorem validateQuizSet_averageScore (qs : List QuizQuestion) (o : QuizValidationOptions) :
    (validateQuizSet qs o).summary.averageScore =
      mathRound (((((validateQuizSet qs o).results.map (fun r => r.score)).sum : ℤ) : ℚ) /
        ((max 1 qs.length : ℕ) : ℚ)) ∧
    validateQuizSet [] o =
      { valid := true, results := [],
        summary := { total := 0, passed := 0, failed := 0, averageScore := 0 } } := by
  constructor
  · have hdef : (validateQuizSet qs o).summary.averageScore =
        roundDiv (((validateQuizSet qs o).results.map (fun r => r.score)).sum)
          (max 1 (validateQuizSet qs o).results.length) := rfl
    have hlen : (validateQuizSet qs o).results.length = qs.length := List.length_map _ _
    rw [hdef, hlen, roundDiv_eq_mathRound _ _ (by omega)]
  · simp [validateQuizSet, roundDiv]

/-- Score bounds for the clamped rounded ratio: always in `[0, 100]`, and
equal to 100 exactly when `200 * failedChecks ≤ totalChecks`. -/
theorem score_bounds_aux (t f : ℕ) (ht : 0 < t) :
    0 ≤ max 0 (roundDiv (((t : ℤ) - f) * 100) t) ∧
    max 0 (roundDiv (((t : ℤ) - f) * 100) t) ≤ 100 ∧
    (max 0 (roundDiv (((t : ℤ) - f) * 100) t) = 100 ↔ 200 * f ≤ t) := by
  have ht' : (0 : ℤ) < (t : ℤ) := by exact_mod_cast ht
  have hd : (0 : ℤ) < 2 * (t : ℤ) := by linarith
  have hdiv : roundDiv (((t : ℤ) - f) * 100) t =
      (2 * (((t : ℤ) - f) * 100) + t) / (2 * (t : ℤ)) := rfl
  have h1 : (2 * (((t : ℤ) - f) * 100) + t) / (2 * (t : ℤ)) < 101 := by
    rw [Int.ediv_lt_iff_lt_mul hd]
    have hf : (0 : ℤ) ≤ (f : ℤ) := Int.natCast_nonneg f
    linarith
  have h2 : 100 ≤ (2 * (((t : ℤ) - f) * 100) + t) / (2 * (t : ℤ)) ↔
      100 * (2 * (t : ℤ)) ≤ 2 * (((t : ℤ) - f) * 100) + t :=
    Int.le_ediv_iff_mul_le hd
  rw [hdiv]
  revert h1 h2
  generalize (2 * (((t : ℤ) - f) * 100) + t) / (2 * (t : ℤ)) = y
  intro h1 h2
  refine ⟨le_max_left 0 y, ?_, ?_⟩ <;> omega

/-- Options that pad `totalChecks` with 196 vacuous custom rules. -/
def scoreQuirkOptions : QuizValidationOptions :=
  { customRules := some (List.replicate 196 { field := "x" }) }

/-- A question whose text is too short (one `minLength` error). -/
def scoreQuirkQuestion : QuizQuestion := { question := "Hi" }

set_option maxRecDepth 8000 in
/-- C2 counterexample: with 196 custom rules `totalChecks = 200`, and a
question carrying exactly one error still gets score 100 — `score = 100`
does not imply `errors.length = 0`. -/
theorem score_hundred_despite_error :
    (validateQuizQuestion scoreQuirkQuestion scoreQuirkOptions).score = 100 ∧
    (validateQuizQuestion scoreQuirkQuestion scoreQuirkOptions).errors ≠ [] := by
  constructor <;> decide

/-- C2 (amended): the score is always an integer in `[0, 100]`;
`score = 100` iff `200 * errors.length ≤ totalChecks`, which collapses to
`score = 100 ↔ errors = []` whenever `totalChecks < 200`. -/
theorem validateQuizQuestion_score_bounds (q : QuizQuestion) (o : QuizValidationOptions) :
    0 ≤ (validateQuizQuestion q o).score ∧
    (validateQuizQuestion q o).score ≤ 100 ∧
    ((validateQuizQuestion q o).score = 100 ↔
      200 * (validateQuizQuestion q o).errors.length ≤ totalChecks q o) ∧
    (totalChecks q o < 200 →
      ((validateQuizQuestion q o).score = 100 ↔ (validateQuizQuestion q o).errors = [])) := by
  have h := score_bounds_aux (totalChecks q o) ((validateQuizQuestion q o).errors.length)
    (totalChecks_pos q o)
  rw [← validateQuizQuestion_score_def q o] at h
  refine ⟨h.1, h.2.1, h.2.2, ?_⟩
  intro hlt
  rw [h.2.2, ← List.length_eq_zero]
  omega

theorem validateQuizQuestion_score_bounds_witness :
    0 ≤ (validateQuizQuestion { question := "What is 2+2?", options := some ["3", "4", "5", "6"] } {}).score ∧
    ((validateQuizQuestion { question := "What is 2+2?", options := some ["3", "4", "5", "6"] } {}).score = 100 ↔
      (validateQuizQuestion { question := "What is 2+2?", options := some ["3", "4", "5", "6"] } {}).errors = []) :=
  ⟨(validateQuizQuestion_score_bounds { question := "What is 2+2?", options := some ["3", "4", "5", "6"] } {}).1,
   (validateQuizQuestion_score_bounds { question := "What is 2+2?", options := some ["3", "4", "5", "6"] } {}).2.2.2
     (by decide)⟩

/-- A rule whose override message is the empty string. -/
def emptyMessageRule : ValidationRule :=
  { field := "f", required := some true, errorMessage := some "" }

/-- C4 counterexample: `errorMessage` is combined with JavaScript `||`, so
an errorMessage that is set but empty is falsy and the default
`"<field> is required"` is used instead of it. -/
theorem required_error_ignores_empty_message :
    (validateField .undef emptyMessageRule).map (fun e => e.message) =
      some "f is required" ∧
    emptyMessageRule.errorMessage = some "" ∧
    ("f is required" : String) ≠ "" := by
  refine ⟨?_, ?_, ?_⟩ <;> decide

/-- C4 (amended): for an absent value (undefined, null or empty string):
with `required` true, `validateField` returns a `required` error whose
message is `rule.errorMessage` when that is set and non-empty and
`"<field> is required"` otherwise; with `required` false or unset it
returns null regardless of the other rule fields. -/
theorem validateField_required_absent (r : ValidationRule) (v : Value)
    (hv : v.isAbsent = true) :
    (r.required.getD false = true →
      (∀ m, r.errorMessage = some m → m ≠ "" →
        validateField v r =
          some { field := r.field, message := m, value := some v, rule := some "required" }) ∧
      ((r.errorMessage = none ∨ r.errorMessage = some "") →
        validateField v r =
          some { field := r.field, message := r.field ++ " is required",
                 value := some v, rule := some "required" })) ∧
    (r.required.getD false = false → validateField v r = none) := by
  constructor
  · intro hreq
    constructor
    · intro m hm hne
      unfold validateField
      simp [hv, hreq, jsStringOr, hm, hne]
    · intro hmsg
      unfold validateField
      rcases hmsg with h | h <;> simp [hv, hreq, jsStringOr, h]
  · intro hreq
    unfold validateField
    simp [hv, hreq]

theorem validateField_required_absent_witness :
    validateField .null { field := "f", required := some true, errorMessage := some "msg" } =
      some { field := "f", message := "msg", value := some .null, rule := some "required" } ∧
    validateField (.str "") { field := "g", minLength := some 3 } = none :=
  ⟨((validateField_required_absent
      { field := "f", required := some true, errorMessage := some "msg" } .null
      (by decide)).1 (by decide)).1 "msg" rfl (by decide),
   (validateField_required_absent { field := "g", minLength := some 3 } (.str "")
      (by decide)).2 (by decide)⟩

/-- C5 counterexample: the empty string is treated as an absent value, so a
non-required rule with `minLength = 3` returns no error on `""` even though
its length is below the minimum. -/
theorem minLength_skipped_for_empty_string :
    validateField (.str "") { field := "f", minLength := some 3 } = none ∧
    ("" : String).length < 3 := by
  constructor <;> decide

/-- C5 (amended): for a rule whose only set check is `minLength = m` and a
non-empty string `v`, `validateField` errors iff `len(v) < m`; for a rule
whose only set check is `maxLength = M`, it errors iff `len(v) > M` (any
string; the empty string is absent and produces no error, consistent with
`0 > M` being false). -/
theorem validateField_length_checks (f : String) (m M : Nat) (v : String) :
    (v ≠ "" →
      ((validateField (.str v) { field := f, minLength := some m }).isSome = true ↔
        v.length < m)) ∧
    ((validateField (.str v) { field := f, maxLength := some M }).isSome = true ↔
      M < v.length) := by
  constructor
  · intro hv
    unfold validateField
    by_cases hlt : v.length < m <;>
      simp [Value.isAbsent, hv, hlt, Option.orElse, lengthChecks, patternCheck, customCheck]
  · by_cases hv : v = ""
    · subst hv
      simp [validateField, Value.isAbsent]
    · unfold validateField
      by_cases hgt : M < v.length <;>
        simp [Value.isAbsent, hv, hgt, Option.orElse, lengthChecks, patternCheck, customCheck]

theorem validateField_length_checks_witness :
    ((validateField (.str "ab") { field := "f", minLength := some 3 }).isSome = true ↔
      ("ab" : String).length < 3) ∧
    ((validateField (.str "ab") { field := "f", maxLength := some 1 }).isSome = true ↔
      1 < ("ab" : String).length) :=
  ⟨(validateField_length_checks "f" 3 1 "ab").1 (by decide),
   (validateField_length_checks "f" 3 1 "ab").2⟩

/-- The example question of the spec's strict-mode example. -/
def strictExampleQuestion : QuizQuestion := { question := "Q?", options := some ["A", "B"] }

/-- The options of the spec's strict-mode example. -/
def strictExampleOptions : QuizValidationOptions := { requireExplanation := some true }

/-- C9 counterexample: `{question: "Q?", options: ["A","B"]}` with
`requireExplanation: true` yields two errors, not one: the question text
`"Q?"` is shorter than the default `questionMinLength` of 5. -/
theorem strict_example_has_two_errors :
    (validateQuizQuestion strictExampleQuestion strictExampleOptions).errors.length = 2 ∧
    (validateQuizQuestion strictExampleQuestion strictExampleOptions).errors.length ≠ 1 := by
  constructor <;> decide

/-- C9 (amended): the strict-mode example returns exactly two errors — a
`minLength` error on `question` followed by a `required` error on
`explanation` — with `valid = false` and score 71. -/
theorem strict_example_errors_exact :
    (validateQuizQuestion strictExampleQuestion strictExampleOptions).errors =
      [{ field := "question", message := "question must be at least 5 characters (got 2)",
         value := some (.str "Q?"), rule := some "minLength" },
       { field := "explanation", message := "explanation is required",
         value := some .undef, rule := some "required" }] ∧
    (validateQuizQuestion strictExampleQuestion strictExampleOptions).valid = false ∧
    (validateQuizQuestion strictExampleQuestion strictExampleOptions).score = 71 := by
  refine ⟨?_, ?_, ?_⟩ <;> decide

/-- The `minLength` condition of `validateField` fails for string `s`. -/
def minLengthViolated (r : ValidationRule) (s : String) : Bool :=
  match r.minLength with
  | some m => s.length < m
  | none => false

/-- The `maxLength` condition of `validateField` fails for string `s`. -/
def maxLengthViolated (r : ValidationRule) (s : String) : Bool :=
  match r.maxLength with
  | some m => s.length > m
  | none => false

/-- The pattern condition of `validateField` fails for string `s`. -/
def patternViolated (r : ValidationRule) (s : String) : Bool :=
  match r.pattern with
  | some p => !(p s)
  | none => false

/-- The custom-validator condition of `validateField` fails for `v`. -/
def customViolated (r : ValidationRule) (v : Value) : Bool :=
  match r.customValidator with
  | some cv => !(cv v)
  | none => false

theorem lengthChecks_of_min (r : ValidationRule) (s : String)
    (h : minLengthViolated r s = true) :
    (lengthChecks (.str s) r).map (fun e => e.rule) = some (some "minLength") := by
  unfold minLengthViolated at h
  rcases hm : r.minLength with _ | m
  · rw [hm] at h; simp at h
  · rw [hm] at h
    simp only [decide_eq_true_eq] at h
    simp [lengthChecks, hm, h, Option.orElse]

theorem lengthChecks_of_max (r : ValidationRule) (s : String)
    (hmin : minLengthViolated r s = false) (hmax : maxLengthViolated r s = true) :
    (lengthChecks (.str s) r).map (fun e => e.rule) = some (some "maxLength") := by
  unfold minLengthViolated at hmin
  unfold maxLengthViolated at hmax
  rcases hM : r.maxLength with _ | M
  · rw [hM] at hmax; simp at hmax
  · rw [hM] at hmax
    simp only [decide_eq_true_eq] at hmax
    rcases hm : r.minLength with _ | m
    · simp [lengthChecks, hm, hM, hmax, Option.orElse]
    · rw [hm] at hmin
      simp only [decide_eq_false_iff_not] at hmin
      simp [lengthChecks, hm, hM, hmin, hmax, Option.orElse]

theorem lengthChecks_none (r : ValidationRule) (s : String)
    (hmin : minLengthViolated r s = false) (hmax : maxLengthViolated r s = false) :
    lengthChecks (.str s) r = none := by
  unfold minLengthViolated at hmin
  unfold maxLengthViolated at hmax
  rcases hm : r.minLength with _ | m <;> rcases hM : r.maxLength with _ | M
  · simp [lengthChecks, hm, hM, Option.orElse]
  · rw [hM] at hmax
    simp only [decide_eq_false_iff_not] at hmax
    simp [lengthChecks, hm, hM, hmax, Option.orElse]
  · rw [hm] at hmin
    simp only [decide_eq_false_iff_not] at hmin
    simp [lengthChecks, hm, hM, hmin, Option.orElse]
  · rw [hm] at hmin
    rw [hM] at hmax
    simp only [decide_eq_false_iff_not] at hmin hmax
    simp [lengthChecks, hm, hM, hmin, hmax, Option.orElse]

theorem lengthChecks_not_string (r : ValidationRule) (v : Value)
    (hv : v.isString = false) : lengthChecks v r = none := by
  cases v <;> first | rfl | simp [Value.isString] at hv

theorem patternCheck_of_violated (r : ValidationRule) (s : String)
    (h : patternViolated r s = true) :
    (patternCheck (.str s) r).map (fun e => e.rule) = some (some "pattern") := by
  unfold patternViolated at h
  rcases hp : r.pattern with _ | p
  · rw [hp] at h; simp at h
  · rw [hp] at h
    simp at h
    simp [patternCheck, hp, h]

theorem patternCheck_none (r : ValidationRule) (s : String)
    (h : patternViolated r s = false) : patternCheck (.str s) r = none := by
  unfold patternViolated at h
  rcases hp : r.pattern with _ | p
  · simp [patternCheck, hp]
  · rw [hp] at h
    simp at h
    simp [patternCheck, hp, h]

theorem patternCheck_not_string (r : ValidationRule) (v : Value)
    (hv : v.isString = false) : patternCheck v r = none := by
  cases v <;> rcases hp : r.pattern with _ | p <;>
    simp [patternCheck, hp] <;> simp [Value.isString] at hv

theorem customCheck_of_violated (r : ValidationRule) (v : Value)
    (h : customViolated r v = true) :
    (customCheck v r).map (fun e => e.rule) = some (some "custom") := by
  unfold customViolated at h
  rcases hc : r.customValidator with _ | cv
  · rw [hc] at h; simp at h
  · rw [hc] at h
    simp at h
    simp [customCheck, hc, h]

theorem customCheck_none (r : ValidationRule) (v : Value)
    (h : customViolated r v = false) : customCheck v r = none := by
  unfold customViolated at h
  rcases hc : r.customValidator with _ | cv
  · simp [customCheck, hc]
  · rw [hc] at h
    simp at h
    simp [customCheck, hc, h]

/-- C6: `validateField` evaluates its checks in strict precedence order —
required, then minLength, then maxLength, then pattern, then
customValidator — returning the first failing check's error and ignoring
later ones; for non-string, non-absent values the length and pattern
checks are skipped, so only the custom check (besides the required check,
which needs an absent value) can produce an error. -/
theorem validateField_precedence (r : ValidationRule) (v : Value) :
    (v.isAbsent = true → r.required.getD false = true →
      (validateField v r).map (fun e => e.rule) = some (some "required")) ∧
    (v.isAbsent = true → r.required.getD false = false →
      validateField v r = none) ∧
    (∀ s, v = .str s → v.isAbsent = false →
      (minLengthViolated r s = true →
        (validateField v r).map (fun e => e.rule) = some (some "minLength")) ∧
      (minLengthViolated r s = false → maxLengthViolated r s = true →
        (validateField v r).map (fun e => e.rule) = some (some "maxLength")) ∧
      (minLengthViolated r s = false → maxLengthViolated r s = false →
        patternViolated r s = true →
        (validateField v r).map (fun e => e.rule) = some (some "pattern")) ∧
      (minLengthViolated r s = false → maxLengthViolated r s = false →
        patternViolated r s = false → customViolated r v = true →
        (validateField v r).map (fun e => e.rule) = some (some "custom")) ∧
      (minLengthViolated r s = false → maxLengthViolated r s = false →
        patternViolated r s = false → customViolated r v = false →
        validateField v r = none)) ∧
    (v.isString = false → v.isAbsent = false →
      (customViolated r v = true →
        (validateField v r).map (fun e => e.rule) = some (some "custom")) ∧
      (customViolated r v = false → validateField v r = none)) := by
  refine ⟨?_, ?_, ?_, ?_⟩
  · intro hab hreq
    unfold validateField
    simp [hab, hreq]
  · intro hab hreq
    unfold validateField
    simp [hab, hreq]
  · rintro s rfl hab
    refine ⟨?_, ?_, ?_, ?_, ?_⟩
    · intro hmin
      have h := lengthChecks_of_min r s hmin
      rcases hle : lengthChecks (.str s) r with _ | e
      · rw [hle] at h; simp at h
      · rw [hle] at h
        unfold validateField
        simp [hab, hle, Option.orElse, h]
    · intro hmin hmax
      have h := lengthChecks_of_max r s hmin hmax
      rcases hle : lengthChecks (.str s) r with _ | e
      · rw [hle] at h; simp at h
      · rw [hle] at h
        unfold validateField
        simp [hab, hle, Option.orElse, h]
    · intro hmin hmax hpat
      have h := patternCheck_of_violated r s hpat
      rcases hpe : patternCheck (.str s) r with _ | e
      · rw [hpe] at h; simp at h
      · rw [hpe] at h
        unfold validateField
        simp [hab, lengthChecks_none r s hmin hmax, hpe, Option.orElse, h]
    · intro hmin hmax hpat hcust
      have h := customCheck_of_violated r (.str s) hcust
      rcases hce : customCheck (.str s) r with _ | e
      · rw [hce] at h; simp at h
      · rw [hce] at h
        unfold validateField
        simp [hab, lengthChecks_none r s hmin hmax, patternCheck_none r s hpat,
          hce, Option.orElse, h]
    · intro hmin hmax hpat hcust
      unfold validateField
      simp [hab, lengthChecks_none r s hmin hmax, patternCheck_none r s hpat,
        customCheck_none r (.str s) hcust, Option.orElse]
  · intro hstr hab
    constructor
    · intro hcust
      have h := customCheck_of_violated r v hcust
      rcases hce : customCheck v r with _ | e
      · rw [hce] at h; simp at h
      · rw [hce] at h
        unfold validateField
        simp [hab, lengthChecks_not_string r v hstr, patternCheck_not_string r v hstr,
          hce, Option.orElse, h]
    · intro hcust
      unfold validateField
      simp [hab, lengthChecks_not_string r v hstr, patternCheck_not_string r v hstr,
        customCheck_none r v hcust, Option.orElse]

theorem validateField_precedence_witness :
    (validateField (.str "x")
        { field := "f", minLength := some 2, maxLength := some 1,
          pattern := some (fun s => s = "ok"),
          customValidator := some (fun _ => false) }).map (fun e => e.rule) =
      some (some "minLength") ∧
    (validateField (.num 3)
        { field := "f", minLength := some 9,
          customValidator := some (fun _ => false) }).map (fun e => e.rule) =
      some (some "custom") := by
  constructor
  · exact ((validateField_precedence
      { field := "f", minLength := some 2, maxLength := some 1,
        pattern := some (fun s => s = "ok"),
        customValidator := some (fun _ => false) } (.str "x")).2.2.1 "x" rfl
      (by decide)).1 (by decide)
  · exact ((validateField_precedence
      { field := "f", minLength := some 9,
        customValidator := some (fun _ => false) } (.num 3)).2.2.2
      (by decide) (by decide)).1 (by decide)

theorem getField_update_correctAnswer (q : QuizQuestion) (c : Value) (f : String)
    (hf : f ≠ "correctAnswer") :
    QuizQuestion.getField { q with correctAnswer := c } f = q.getField f := by
  unfold QuizQuestion.getField
  split_ifs <;> rfl

theorem customRuleErrors_update_correctAnswer (q : QuizQuestion) (c : Value)
    (rules : List ValidationRule) (h : ∀ r ∈ rules, r.field ≠ "correctAnswer") :
    customRuleErrors { q with correctAnswer := c } rules = customRuleErrors q rules := by
  unfold customRuleErrors
  exact List.filterMap_congr fun r hr => by
    rw [getField_update_correctAnswer q c r.field (h r hr)]

/-- A question that carries a `correctAnswer` value. -/
def probeQuestion : QuizQuestion := { question := "Valid question", correctAnswer := .str "A" }

/-- Options with one custom rule that requires the `correctAnswer` field. -/
def correctAnswerProbeOptions : QuizValidationOptions :=
  { customRules := some [{ field := "correctAnswer", required := some true }] }

/-- C10 counterexample: a custom rule may name the `correctAnswer` field,
and then `validateQuizQuestion` does read it — two questions differing only
in `correctAnswer` validate differently. -/
theorem custom_rule_reads_correctAnswer :
    validateQuizQuestion probeQuestion correctAnswerProbeOptions ≠
      validateQuizQuestion { probeQuestion with correctAnswer := .undef }
        correctAnswerProbeOptions := by
  decide

/-- C10 (amended): the built-in checks of `validateQuizQuestion` never read
`correctAnswer` (the constant 4 in the score formula nominally counts a
correct-answer check that is never performed), so whenever no custom rule
names the `correctAnswer` field, two questions differing only in
`correctAnswer` — including one having it absent — produce identical
results (same `valid`, `errors`, `warnings` and `score`). -/
theorem validateQuizQuestion_ignores_correctAnswer (q : QuizQuestion)
    (o : QuizValidationOptions) (c : Value)
    (h : ∀ r ∈ o.customRules.getD [], r.field ≠ "correctAnswer") :
    validateQuizQuestion { q with correctAnswer := c } o = validateQuizQuestion q o := by
  have hce := customRuleErrors_update_correctAnswer q c (o.customRules.getD []) h
  simp only [validateQuizQuestion, totalChecks, optionCount, hce]

theorem validateQuizQuestion_ignores_correctAnswer_witness :
    validateQuizQuestion { probeQuestion with correctAnswer := .num 7 } {} =
      validateQuizQuestion probeQuestion {} :=
  validateQuizQuestion_ignores_correctAnswer probeQuestion {} (.num 7)
    (fun r hr => absurd hr (List.not_mem_nil r))
